import Mathlib

/-!
Formal model of the client-side upload subsystem of the tolstoy-video-gallery
repository.  The subsystem exists in three near-duplicate variants:

* the main uploader, `src/components/VideoUploader.js` (size cap, id-tagged
  tasks, concurrent batch upload, status projector);
* a sequential variant (`src/unnamed/part_000`): per-file progress keyed by
  file name, files uploaded one after the other, initial 5% progress bump;
* a drag-and-drop variant with remove/retry (`src/unnamed/part_001`).

Pure functions of the source are translated directly; the stateful React
component is modelled by explicit state records (`UState`) and by functions
from a state and a transfer environment (what the network does for each
task) to the resulting state, the settled outcomes, and the list of
completion-callback invocations.  JS objects used as dictionaries become
functions from keys to optional values.
-/

/-- String-keyed dictionary, the model of a JS object used as a map
(`uploadProgress`, `uploadStatus`). -/
abbrev SMap (α : Type) : Type := String → Option α

/-- Functional update: the model of the JS spread `{...prev, [id]: v}`. -/
def SMap.set {α : Type} (m : SMap α) (k : String) (v : α) : SMap α :=
  fun q => if q = k then some v else m q

/-- Key deletion: the model of the JS `delete obj[id]` used by `removeFile`
in part_001. -/
def SMap.del {α : Type} (m : SMap α) (k : String) : SMap α :=
  fun q => if q = k then none else m q

/-- The empty dictionary `{}`. -/
def SMap.empty {α : Type} : SMap α := fun _ => none

/-- A selected browser `File`: only its name and byte size matter to the
modelled code. -/
structure FileObj where
  name : String
  size : Nat
deriving DecidableEq

/-- A registry entry built by `handleFileChange` / `addNewFiles`:
`{ id: ..., file, status: "ready" }` (the `status` field of the object is
never read again; statuses live in the `uploadStatus` map, so it is not
modelled here). -/
structure FileTask where
  id : String
  file : FileObj
deriving DecidableEq

/-- Id assignment at registration: the template literal
`${file.name}-${Date.now()}` (VideoUploader.js line 53, part_001 lines
29 and 82).  `now` is the millisecond clock value at the call. -/
def mkId (f : FileObj) (now : Nat) : String :=
  f.name ++ "-" ++ toString now

/-- Component state of the main / part_001 uploader: the four `useState`
cells `files`, `uploading`, `uploadProgress`, `uploadStatus`. -/
structure UState where
  files : List FileTask
  uploading : Bool
  uploadProgress : SMap Nat
  uploadStatus : SMap String

/-- Admission of a list of accepted files (part_001 `addNewFiles` lines
79-100; the same block is inlined twice inside the main variant's
`handleFileChange`, lines 52-68 and 71-87): each file gets a fresh task with
id `mkId f now`, progress 0 and status "ready" appended to the maps. -/
def addNewFiles (st : UState) (newFiles : List FileObj) (now : Nat) : UState :=
  let fileObjects := newFiles.map (fun f => FileTask.mk (mkId f now) f)
  { files := st.files ++ fileObjects
    uploading := st.uploading
    uploadProgress := fileObjects.foldl (fun m t => SMap.set m t.id 0) st.uploadProgress
    uploadStatus := fileObjects.foldl (fun m t => SMap.set m t.id "ready") st.uploadStatus }

/-- Task removal (part_001 `removeFile`, lines 110-125). -/
def removeFile (st : UState) (id : String) : UState :=
  { files := st.files.filter (fun t => ! (t.id == id))
    uploading := st.uploading
    uploadProgress := SMap.del st.uploadProgress id
    uploadStatus := SMap.del st.uploadStatus id }

/-- Registry reset (part_001 `clearFiles`, lines 128-132). -/
def clearFiles (st : UState) : UState :=
  { files := [], uploading := st.uploading
    uploadProgress := SMap.empty, uploadStatus := SMap.empty }

/-- One `ProgressEvent` delivered to the `xhr.upload` progress listener. -/
structure ProgressEvent where
  lengthComputable : Bool
  loaded : Nat
  total : Nat
deriving DecidableEq

/-- The JSON body of a successful upload response,
`{videoUrl, thumbnailUrl|null}`. -/
structure UploadResponse where
  videoUrl : String
  thumbnailUrl : Option String
deriving DecidableEq

/-- Terminal behaviour of one XHR transfer: either the `onerror` handler
fires (network-level failure), or `onload` fires with an HTTP status and a
body that either parses as JSON (`some r`) or does not (`none`). -/
inductive Outcome where
  | netError : Outcome
  | response (status : Nat) (body : Option UploadResponse) : Outcome
deriving DecidableEq

/-- What the network does for one transfer: the progress events delivered to
the upload listener, followed by the terminal outcome. -/
structure TransferBehavior where
  events : List ProgressEvent
  outcome : Outcome

/-- Progress rescaling `Math.round((event.loaded / event.total) * 60)`
(VideoUploader.js line 119, part_000 line 129, part_001 line 151), in exact
arithmetic: `Math.round x = ⌊x + 1/2⌋`, so for the rational
`loaded * 60 / total` the value is `⌊(2 * loaded * 60 + total) / (2 * total)⌋`. -/
def round60 (loaded total : Nat) : Nat :=
  (2 * (loaded * 60) + total) / (2 * total)

/-- The progress listener body: events with `lengthComputable` produce a
rescaled progress write, others are ignored (VideoUploader.js lines
116-122). -/
def scaleEvent (e : ProgressEvent) : Option Nat :=
  if e.lengthComputable then some (round60 e.loaded e.total) else none

/-- Observable result of one `uploadFile` call of the main / part_001
variant (lines 103-163 / 135-195): the ordered list of values written to
`uploadProgress[id]`, the final value of `uploadStatus[id]`, the promise
settlement, and the number of `xhr.send` calls issued. -/
structure UploadRun where
  progressUpdates : List Nat
  finalStatus : String
  result : Except String UploadResponse
  sends : Nat

/-- Model of `uploadFile` (VideoUploader.js lines 103-163): status is set to
"uploading", each computable progress event writes the rescaled value; on a
2xx `onload` progress jumps to 80 and status to "processing", then a parsed
body gives progress 100 / status "complete" and resolves, an unparsable body
gives status "error" and rejects; a non-2xx status or `onerror` gives status
"error" and rejects.  Exactly one `xhr.send` happens per call — there is no
retry loop in the transport. -/
def uploadFileRun (b : TransferBehavior) : UploadRun :=
  let scaled := b.events.filterMap scaleEvent
  match b.outcome with
  | Outcome.netError =>
      ⟨scaled, "error", Except.error "Network Error", 1⟩
  | Outcome.response s body =>
      if 200 ≤ s ∧ s < 300 then
        match body with
        | some r => ⟨scaled ++ [80, 100], "complete", Except.ok r, 1⟩
        | none => ⟨scaled ++ [80], "error", Except.error "Invalid response format", 1⟩
      else ⟨scaled, "error", Except.error ("HTTP Error: " ++ toString s), 1⟩

/-- The files a batch submits: those whose status is not "complete"
(VideoUploader.js line 181, part_001 line 207). -/
def pendingFiles (st : UState) : List FileTask :=
  st.files.filter (fun t => ! (st.uploadStatus t.id == some "complete"))

/-- Per-task transfer runs started by one batch, keyed by task id: each
pending task gets one `uploadFile` call against its own transfer
behaviour. -/
def batchRuns (st : UState) (env : String → TransferBehavior) :
    List (String × UploadRun) :=
  (pendingFiles st).map (fun t => (t.id, uploadFileRun (env t.id)))

/-- The `uploadResults` entries that survive the `result !== null` filter:
settlements whose promise resolved (VideoUploader.js lines 183-185, 203). -/
def batchSuccesses (st : UState) (env : String → TransferBehavior) :
    List UploadResponse :=
  (batchRuns st env).filterMap (fun p => p.2.result.toOption)

/-- The settled (id, final status) pairs of a batch, one per pending task. -/
def batchSettlements (st : UState) (env : String → TransferBehavior) :
    List (String × String) :=
  (batchRuns st env).map (fun p => (p.1, p.2.finalStatus))

/-- Final progress map after all transfers settle: each task's last written
progress value, if it wrote any. -/
def batchProgressFinal (st : UState) (env : String → TransferBehavior) : SMap Nat :=
  (batchRuns st env).foldl
    (fun m p =>
      match p.2.progressUpdates.getLast? with
      | some v => SMap.set m p.1 v
      | none => m)
    st.uploadProgress

/-- Final status map after all transfers settle. -/
def batchStatusFinal (st : UState) (env : String → TransferBehavior) : SMap String :=
  (batchRuns st env).foldl (fun m p => SMap.set m p.1 p.2.finalStatus)
    st.uploadStatus

/-- Observable result of one `uploadAllFiles` call: the settled component
state, the ids submitted to the transport, the settled outcomes, the
successful results, and the list of `onUploadComplete` invocations (each
with its argument). -/
structure BatchRun where
  state : UState
  submissions : List String
  settlements : List (String × String)
  successes : List UploadResponse
  callbackCalls : List (List UploadResponse)

/-- Model of `uploadAllFiles` (VideoUploader.js lines 170-218, identical in
part_001 lines 198-240 except for the 1 s presentation delay, which does not
change the settled result).  Guard: with no files or a batch already in
flight the call returns at once, submitting nothing.  Otherwise every
not-yet-complete task is submitted; each rejection is caught per task
(`.catch` returning null) so `Promise.allSettled` resolves after all N
settlements; the callback fires once with the successful subset only when
that subset is non-empty, after which the registry is cleared. -/
def uploadAllFiles (st : UState) (env : String → TransferBehavior) : BatchRun :=
  if st.files.length = 0 ∨ st.uploading = true then
    ⟨st, [], [], [], []⟩
  else if 0 < (batchSuccesses st env).length then
    ⟨⟨[], false, SMap.empty, SMap.empty⟩,
      (batchRuns st env).map (fun p => p.1),
      batchSettlements st env,
      batchSuccesses st env,
      [batchSuccesses st env]⟩
  else
    ⟨⟨st.files, false, batchProgressFinal st env, batchStatusFinal st env⟩,
      (batchRuns st env).map (fun p => p.1),
      batchSettlements st env,
      batchSuccesses st env,
      []⟩

/-- The retry affordance the part_001 component exposes: the Retry button is
rendered only for a task whose status is "error" (line 361) and is disabled
while `uploading` is true (line 364), so `retryUpload(id)` can fire only
when both conditions hold. -/
def retryEnabled (st : UState) (id : String) : Prop :=
  st.uploadStatus id = some "error" ∧ st.uploading = false

/-- Return value of `getStatusInfo`: display text plus the Tailwind color
classes that carry the semantic tag (blue/purple = info, green = success,
red = error, gray = neutral). -/
structure StatusInfo where
  text : String
  color : String
  bgColor : String
deriving DecidableEq

/-- Status projector `getStatusInfo` of the main variant (VideoUploader.js
lines 226-262): a pure function of the recorded status and progress entry;
`uploadProgress[id] || 0` defaults a missing progress entry to 0, and the
switch falls through to the Ready presentation for any status other than
the four explicit cases. -/
def getStatusInfo (status : Option String) (progressEntry : Option Nat) : StatusInfo :=
  let progress := progressEntry.getD 0
  if status = some "uploading" then
    ⟨"Uploading: " ++ toString progress ++ "%", "text-blue-500", "bg-blue-500"⟩
  else if status = some "processing" then
    ⟨"Processing...", "text-purple-500", "bg-purple-500"⟩
  else if status = some "complete" then
    ⟨"Complete", "text-green-500", "bg-green-500"⟩
  else if status = some "error" then
    ⟨"Failed", "text-red-500", "bg-red-500"⟩
  else
    ⟨"Ready", "text-gray-500", "bg-gray-300"⟩

/-- JS string interpolation of a possibly-undefined number. -/
def jsNum (p : Option Nat) : String :=
  match p with
  | some n => toString n
  | none => "undefined"

/-- Status projector of part_001 (lines 266-302): identical to the main one
except that `const progress = uploadProgress[id]` has no `|| 0` default, so
a missing entry interpolates as "undefined" in the uploading branch. -/
def getStatusInfoNoDefault (status : Option String) (progressEntry : Option Nat) :
    StatusInfo :=
  if status = some "uploading" then
    ⟨"Uploading: " ++ jsNum progressEntry ++ "%", "text-blue-500", "bg-blue-500"⟩
  else if status = some "processing" then
    ⟨"Processing...", "text-purple-500", "bg-purple-500"⟩
  else if status = some "complete" then
    ⟨"Complete", "text-green-500", "bg-green-500"⟩
  else if status = some "error" then
    ⟨"Failed", "text-red-500", "bg-red-500"⟩
  else
    ⟨"Ready", "text-gray-500", "bg-gray-300"⟩

/-- Modelled from the spec: the §4.4 semantic tag column.  The code emits
only Tailwind color classes; this map identifies each class the projector
can produce with the spec's tag, so the projector can be compared with the
policy table. -/
def specTag (i : StatusInfo) : String :=
  if i.color = "text-gray-500" then "neutral"
  else if i.color = "text-green-500" then "success"
  else if i.color = "text-red-500" then "error"
  else "info"

/-- Progress values of the sequential variant (part_000): the `progress` map
holds either a number or the string "Error" written on failure (line 98). -/
inductive ProgVal where
  | num (n : Nat) : ProgVal
  | errorSentinel : ProgVal
deriving DecidableEq

/-- Promise settlement of part_000's `uploadFileWithProgress` (lines
121-159): same resolve/reject logic as the main variant's transport. -/
def p0TransferResult (b : TransferBehavior) : Except String UploadResponse :=
  match b.outcome with
  | Outcome.netError => Except.error "Network Error"
  | Outcome.response s body =>
      if 200 ≤ s ∧ s < 300 then
        match body with
        | some r => Except.ok r
        | none => Except.error "Invalid response format"
      else Except.error ("HTTP Error: " ++ toString s)

/-- The ordered progress values part_000 writes for one file during one
`handleUpload` attempt: the initial bump to 5 (line 88), the rescaled
transfer events (line 129), then on a 2xx response the jump to 85 (line
138) followed by 100 on resolve (line 94), or the "Error" sentinel on any
rejection (line 98). -/
def p0AttemptTrace (b : TransferBehavior) : List ProgVal :=
  ProgVal.num 5 ::
    ((b.events.filterMap scaleEvent).map ProgVal.num ++
      (match b.outcome with
       | Outcome.netError => [ProgVal.errorSentinel]
       | Outcome.response s body =>
           if 200 ≤ s ∧ s < 300 then
             match body with
             | some _ => [ProgVal.num 85, ProgVal.num 100]
             | none => [ProgVal.num 85, ProgVal.errorSentinel]
           else [ProgVal.errorSentinel]))

/-- Observable result of one part_000 `handleUpload` run. -/
structure P0Run where
  traces : List (String × List ProgVal)
  newUploadedVideos : List UploadResponse
  callbackCalls : List (List UploadResponse)

/-- Model of part_000's `handleUpload` (lines 75-116): files are processed
sequentially; each failure is caught per file and recorded as the "Error"
sentinel; after the loop the callback is invoked (when provided) with the
collected results — with no check that any upload succeeded. -/
def handleUpload (files : List FileObj) (env : String → TransferBehavior) : P0Run :=
  if files.length = 0 then ⟨[], [], []⟩
  else
    let newUploadedVideos :=
      files.filterMap (fun f => (p0TransferResult (env f.name)).toOption)
    ⟨files.map (fun f => (f.name, p0AttemptTrace (env f.name))),
      newUploadedVideos,
      [newUploadedVideos]⟩

/-- Status projector of the sequential variant, `getProgressStatusText`
(part_000 lines 41-52): a function of the progress value alone, returning
the display text and text color class.  The checks run in source order —
the Error sentinel, then progress 100, then progress above 80, then the
uploading default. -/
def getProgressStatusText (progressValue : ProgVal) : String × String :=
  match progressValue with
  | ProgVal.errorSentinel => ("Upload failed", "text-red-500")
  | ProgVal.num n =>
      if n = 100 then ("Upload complete", "text-green-500")
      else if 80 < n then ("Processing...", "text-blue-500")
      else ("Uploading: " ++ toString n ++ "%", "text-blue-500")

/-- A progress value that is not yet terminal (neither 100 nor the Error
sentinel). -/
def nonTerminal (v : ProgVal) : Bool :=
  match v with
  | ProgVal.num n => decide (n ≠ 100)
  | ProgVal.errorSentinel => false

/-- Numeric content of a progress value. -/
def numVal (v : ProgVal) : Option Nat :=
  match v with
  | ProgVal.num n => some n
  | ProgVal.errorSentinel => none

/-- A trace is monotone-until-terminal when the numeric updates before the
first terminal value are non-decreasing. -/
def traceMonotone (t : List ProgVal) : Prop :=
  ((t.takeWhile nonTerminal).filterMap numVal).Chain' (· ≤ ·)

/-- Wellformed transfer-event sequence, the behaviour of a real XHR upload:
every event has a computable length with `loaded ≤ total`, the byte counter
never decreases, and the total is fixed for the whole transfer. -/
def EventsWF (es : List ProgressEvent) : Prop :=
  (∀ e ∈ es, e.lengthComputable = true ∧ e.loaded ≤ e.total) ∧
    es.Chain' (fun a b => a.loaded ≤ b.loaded ∧ a.total = b.total)

/-- Concrete response used by witnesses and counterexamples. -/
def sampleResp : UploadResponse := ⟨"https://blob.example/video.mp4", none⟩

/-- Transfer environment in which every transfer fails at the network
level. -/
def envNone : String → TransferBehavior := fun _ => ⟨[], Outcome.netError⟩

/-- Transfer environment in which the task "a-1" succeeds and every other
transfer fails at the network level. -/
def envW : String → TransferBehavior := fun id =>
  if id = "a-1" then ⟨[], Outcome.response 200 (some sampleResp)⟩
  else ⟨[], Outcome.netError⟩

/-- Empty component state. -/
def emptyUState : UState := ⟨[], false, SMap.empty, SMap.empty⟩

/-- Idle two-task state used by witnesses. -/
def stW : UState :=
  ⟨[⟨"a-1", ⟨"a", 10⟩⟩, ⟨"b-1", ⟨"b", 20⟩⟩], false, SMap.empty, SMap.empty⟩

/-- State with a batch in flight and one task recorded as uploading. -/
def stBusy : UState :=
  ⟨[⟨"a-1", ⟨"a", 10⟩⟩], true, SMap.empty,
    fun q => if q = "b-1" then some "uploading" else none⟩

/-- Two same-named selected files, as one drag-and-drop can contain. -/
def dupFiles : List FileObj := [⟨"a.mp4", 2000⟩, ⟨"a.mp4", 3000⟩]

/-- Wellformed two-event transfer used by witnesses. -/
def wfEvents : List ProgressEvent := [⟨true, 1, 2⟩, ⟨true, 2, 2⟩]

/-- Rescaled transfer progress never leaves the 0-60 band. -/
theorem round60_le_60 (loaded total : Nat) (h : loaded ≤ total) :
    round60 loaded total ≤ 60 := by
  rcases Nat.eq_zero_or_pos total with ht | ht
  · subst ht
    simp [round60]
  · have h2t : 0 < 2 * total := by omega
    have : 2 * (loaded * 60) + total < 61 * (2 * total) := by omega
    have := (Nat.div_lt_iff_lt_mul h2t).mpr (by omega : 2 * (loaded * 60) + total < 61 * (2 * total))
    unfold round60
    omega

/-- Rescaled transfer progress is monotone in the byte counter. -/
theorem round60_mono {l l' : Nat} (t : Nat) (h : l ≤ l') :
    round60 l t ≤ round60 l' t :=
  Nat.div_le_div_right (by omega)

/-- C5: for a computable-length progress event with `loaded ≤ total` the
reported transfer progress equals the rounded rescaling and lies in 0-60;
values above 60 occur only as the discrete post-response jumps — 80 then
100 in the main variant, 85 then 100 (or the Error sentinel) in the
sequential variant. -/
theorem progress_scaling_range (loaded total : Nat) (e : ProgressEvent)
    (es : List ProgressEvent) (oc : Outcome) (b : TransferBehavior) :
    (loaded ≤ total → round60 loaded total ≤ 60) ∧
    (e.lengthComputable = true → scaleEvent e = some (round60 e.loaded e.total)) ∧
    (∃ js, (uploadFileRun ⟨es, oc⟩).progressUpdates = es.filterMap scaleEvent ++ js ∧
      (js = [] ∨ js = [80] ∨ js = [80, 100])) ∧
    (∃ js, p0AttemptTrace b =
        ProgVal.num 5 :: ((b.events.filterMap scaleEvent).map ProgVal.num ++ js) ∧
      (js = [ProgVal.errorSentinel] ∨ js = [ProgVal.num 85, ProgVal.num 100] ∨
        js = [ProgVal.num 85, ProgVal.errorSentinel])) := by
  refine ⟨fun h => round60_le_60 _ _ h, ?_, ?_, ?_⟩
  · intro h; simp [scaleEvent, h]
  · cases oc with
    | netError => exact ⟨[], by simp [uploadFileRun], Or.inl rfl⟩
    | response s body =>
      by_cases hs : 200 ≤ s ∧ s < 300
      · cases body with
        | some r => exact ⟨[80, 100], by simp [uploadFileRun, hs], Or.inr (Or.inr rfl)⟩
        | none => exact ⟨[80], by simp [uploadFileRun, hs], Or.inr (Or.inl rfl)⟩
      · exact ⟨[], by simp [uploadFileRun, hs], Or.inl rfl⟩
  · rcases b with ⟨evs, oc2⟩
    cases oc2 with
    | netError => exact ⟨[ProgVal.errorSentinel], rfl, Or.inl rfl⟩
    | response s body =>
      by_cases hs : 200 ≤ s ∧ s < 300
      · cases body with
        | some r =>
          exact ⟨[ProgVal.num 85, ProgVal.num 100], by simp [p0AttemptTrace, hs],
            Or.inr (Or.inl rfl)⟩
        | none =>
          exact ⟨[ProgVal.num 85, ProgVal.errorSentinel], by simp [p0AttemptTrace, hs],
            Or.inr (Or.inr rfl)⟩
      · exact ⟨[ProgVal.errorSentinel], by simp [p0AttemptTrace, hs], Or.inl rfl⟩

/-- Witness for C5 at loaded = 30, total = 60. -/
theorem progress_scaling_range_witness :
    round60 30 60 ≤ 60 ∧
      scaleEvent ⟨true, 30, 60⟩ = some (round60 30 60) := by
  have h := progress_scaling_range 30 60 ⟨true, 30, 60⟩ [] Outcome.netError
    ⟨[], Outcome.netError⟩
  exact ⟨h.1 (by decide), h.2.1 rfl⟩

/-- C6: each of the three single-transfer failure conditions — network
error, non-2xx status, unparsable 2xx body — ends the task in status
"error" and rejects the promise with the corresponding message, and the
transport issues exactly one send (no automatic retry) in every case. -/
theorem uploadFile_failure_modes (es : List ProgressEvent) (s : Nat) :
    ((uploadFileRun ⟨es, Outcome.netError⟩).finalStatus = "error" ∧
      (uploadFileRun ⟨es, Outcome.netError⟩).result = Except.error "Network Error" ∧
      (uploadFileRun ⟨es, Outcome.netError⟩).sends = 1) ∧
    (¬ (200 ≤ s ∧ s < 300) → ∀ body,
      (uploadFileRun ⟨es, Outcome.response s body⟩).finalStatus = "error" ∧
      (uploadFileRun ⟨es, Outcome.response s body⟩).result
          = Except.error ("HTTP Error: " ++ toString s) ∧
      (uploadFileRun ⟨es, Outcome.response s body⟩).sends = 1) ∧
    (200 ≤ s → s < 300 →
      (uploadFileRun ⟨es, Outcome.response s none⟩).finalStatus = "error" ∧
      (uploadFileRun ⟨es, Outcome.response s none⟩).result
          = Except.error "Invalid response format" ∧
      (uploadFileRun ⟨es, Outcome.response s none⟩).sends = 1) := by
  refine ⟨⟨rfl, rfl, rfl⟩, ?_, ?_⟩
  · intro hs body
    simp [uploadFileRun, hs]
  · intro h1 h2
    simp [uploadFileRun, h1, h2]

/-- Witness for C6: a 500 response and an unparsable 200 response. -/
theorem uploadFile_failure_modes_witness :
    (uploadFileRun ⟨[], Outcome.netError⟩).finalStatus = "error" ∧
    (uploadFileRun ⟨[], Outcome.response 500 (some sampleResp)⟩).finalStatus = "error" ∧
    (uploadFileRun ⟨[], Outcome.response 500 (some sampleResp)⟩).result
        = Except.error ("HTTP Error: " ++ toString 500) ∧
    (uploadFileRun ⟨[], Outcome.response 200 none⟩).finalStatus = "error" ∧
    (uploadFileRun ⟨[], Outcome.response 200 none⟩).result
        = Except.error "Invalid response format" := by
  refine ⟨(uploadFile_failure_modes [] 500).1.1, ?_, ?_, ?_, ?_⟩
  · exact ((uploadFile_failure_modes [] 500).2.1 (by omega) (some sampleResp)).1
  · exact ((uploadFile_failure_modes [] 500).2.1 (by omega) (some sampleResp)).2.1
  · exact ((uploadFile_failure_modes [] 200).2.2 (by omega) (by omega)).1
  · exact ((uploadFile_failure_modes [] 200).2.2 (by omega) (by omega)).2.1

/-- Counterexample to C7 as stated: the claim's second cited projector,
part_000's `getProgressStatusText`, does not honour the §4.4 table — a
completed task (progress 100) displays "Upload complete", not "Complete",
and a just-admitted task (progress 0) displays "Uploading: 0%" with the
info color, never "Ready"/neutral. -/
theorem p0_projector_off_table :
    getProgressStatusText (ProgVal.num 100) = ("Upload complete", "text-green-500") ∧
    getProgressStatusText (ProgVal.num 100) ≠ ("Complete", "text-green-500") ∧
    getProgressStatusText (ProgVal.num 0) = ("Uploading: 0%", "text-blue-500") ∧
    getProgressStatusText (ProgVal.num 0) ≠ ("Ready", "text-gray-500") := by
  refine ⟨rfl, ?_, rfl, ?_⟩ <;> decide

/-- C7 as amended: the main variant's projector `getStatusInfo` is a pure
function of (status, progress) realising exactly the §4.4 policy table —
Ready maps to "Ready"/neutral, Uploading to the interpolated
percentage/info for any progress, Processing to "Processing..." (the
table's ellipsis)/info, Complete to "Complete"/success and Error to
"Failed"/error.  The sequential variant's projector (part_000's
`getProgressStatusText`, the claim's other cited embodiment) is a pure
function of the progress value alone and deviates from the table: it shows
"Upload failed"/error on the Error sentinel, "Upload complete"/success at
100, "Processing..."/info above 80, and "Uploading: n%"/info otherwise —
including for a just-admitted task at progress 0. -/
theorem status_projector_policy (p : Option Nat) (n : Nat) :
    (getStatusInfo (some "ready") p = ⟨"Ready", "text-gray-500", "bg-gray-300"⟩ ∧
      specTag (getStatusInfo (some "ready") p) = "neutral") ∧
    (getStatusInfo (some "uploading") p =
        ⟨"Uploading: " ++ toString (p.getD 0) ++ "%", "text-blue-500", "bg-blue-500"⟩ ∧
      specTag (getStatusInfo (some "uploading") p) = "info") ∧
    (getStatusInfo (some "processing") p =
        ⟨"Processing...", "text-purple-500", "bg-purple-500"⟩ ∧
      specTag (getStatusInfo (some "processing") p) = "info") ∧
    (getStatusInfo (some "complete") p = ⟨"Complete", "text-green-500", "bg-green-500"⟩ ∧
      specTag (getStatusInfo (some "complete") p) = "success") ∧
    (getStatusInfo (some "error") p = ⟨"Failed", "text-red-500", "bg-red-500"⟩ ∧
      specTag (getStatusInfo (some "error") p) = "error") ∧
    (getProgressStatusText ProgVal.errorSentinel = ("Upload failed", "text-red-500")) ∧
    (getProgressStatusText (ProgVal.num 100) = ("Upload complete", "text-green-500")) ∧
    (n ≠ 100 → 80 < n →
      getProgressStatusText (ProgVal.num n) = ("Processing...", "text-blue-500")) ∧
    (n ≤ 80 →
      getProgressStatusText (ProgVal.num n)
          = ("Uploading: " ++ toString n ++ "%", "text-blue-500")) := by
  refine ⟨⟨rfl, rfl⟩, ⟨rfl, rfl⟩, ⟨rfl, rfl⟩, ⟨rfl, rfl⟩, ⟨rfl, rfl⟩, rfl, rfl, ?_, ?_⟩
  · intro h1 h2
    simp [getProgressStatusText, h1, h2]
  · intro h
    have hne : ¬ (n = 100) := by omega
    have hng : ¬ (80 < n) := by omega
    simp [getProgressStatusText, hne, hng]

/-- Witness for C7 as amended, exercising both guarded part_000 branches. -/
theorem status_projector_policy_witness :
    getProgressStatusText (ProgVal.num 90) = ("Processing...", "text-blue-500") ∧
    getProgressStatusText (ProgVal.num 40)
        = ("Uploading: " ++ toString 40 ++ "%", "text-blue-500") :=
  ⟨(status_projector_policy (some 3) 90).2.2.2.2.2.2.2.1 (by omega) (by omega),
    (status_projector_policy (some 3) 40).2.2.2.2.2.2.2.2 (by omega)⟩

/-- C10: a status that is none of the five lifecycle values (including an
absent entry) falls through to the Ready presentation in both projector
variants, and the main projector treats a missing progress entry exactly as
progress 0. -/
theorem getStatusInfo_fallthrough (status : Option String) (p : Option Nat)
    (h1 : status ≠ some "ready") (h2 : status ≠ some "uploading")
    (h3 : status ≠ some "processing") (h4 : status ≠ some "complete")
    (h5 : status ≠ some "error") :
    getStatusInfo status p = ⟨"Ready", "text-gray-500", "bg-gray-300"⟩ ∧
    specTag (getStatusInfo status p) = "neutral" ∧
    getStatusInfoNoDefault status p = ⟨"Ready", "text-gray-500", "bg-gray-300"⟩ ∧
    getStatusInfo status none = getStatusInfo status (some 0) := by
  have e1 : getStatusInfo status p = ⟨"Ready", "text-gray-500", "bg-gray-300"⟩ := by
    simp [getStatusInfo, h2, h3, h4, h5]
  refine ⟨e1, by rw [e1]; rfl, ?_, rfl⟩
  simp [getStatusInfoNoDefault, h2, h3, h4, h5]

/-- Witness for C10 at the unknown status "bogus" and at an absent entry. -/
theorem getStatusInfo_fallthrough_witness :
    (getStatusInfo (some "bogus") (some 7) = ⟨"Ready", "text-gray-500", "bg-gray-300"⟩ ∧
      specTag (getStatusInfo (some "bogus") (some 7)) = "neutral" ∧
      getStatusInfoNoDefault (some "bogus") (some 7)
          = ⟨"Ready", "text-gray-500", "bg-gray-300"⟩ ∧
      getStatusInfo (some "bogus") none = getStatusInfo (some "bogus") (some 0)) ∧
    (getStatusInfo none (some 7) = ⟨"Ready", "text-gray-500", "bg-gray-300"⟩ ∧
      specTag (getStatusInfo none (some 7)) = "neutral" ∧
      getStatusInfoNoDefault none (some 7) = ⟨"Ready", "text-gray-500", "bg-gray-300"⟩ ∧
      getStatusInfo none none = getStatusInfo none (some 0)) :=
  ⟨getStatusInfo_fallthrough (some "bogus") (some 7) (by decide) (by decide) (by decide)
      (by decide) (by decide),
    getStatusInfo_fallthrough none (some 7) (by decide) (by decide) (by decide)
      (by decide) (by decide)⟩

/-- Every transfer settlement ends the task in "complete" or "error". -/
theorem uploadFileRun_status_cases (b : TransferBehavior) :
    (uploadFileRun b).finalStatus = "complete" ∨ (uploadFileRun b).finalStatus = "error" := by
  rcases b with ⟨es, oc⟩
  cases oc with
  | netError => exact Or.inr rfl
  | response s body =>
    by_cases hs : 200 ≤ s ∧ s < 300
    · cases body with
      | some r => exact Or.inl (by simp [uploadFileRun, hs])
      | none => exact Or.inr (by simp [uploadFileRun, hs])
    · exact Or.inr (by simp [uploadFileRun, hs])

/-- C1: a batch started on an idle, non-empty registry settles exactly one
outcome per not-yet-complete task; each task's settlement is a function of
that task's own transfer behaviour alone (so one task's failure neither
cancels nor blocks another), every settlement is "complete" or "error", and
failures end up recorded in the settlement list rather than escaping as a
batch-level error — `uploadAllFiles` is total. -/
theorem uploadAllFiles_settles_all (st : UState) (env : String → TransferBehavior)
    (h1 : st.uploading = false) (h2 : st.files.length ≠ 0) :
    (uploadAllFiles st env).settlements
        = (pendingFiles st).map (fun t => (t.id, (uploadFileRun (env t.id)).finalStatus)) ∧
    (uploadAllFiles st env).settlements.length = (pendingFiles st).length ∧
    ∀ q ∈ (uploadAllFiles st env).settlements, q.2 = "complete" ∨ q.2 = "error" := by
  have hg : ¬ (st.files.length = 0 ∨ st.uploading = true) := by simp [h1, h2]
  have hs : (uploadAllFiles st env).settlements = batchSettlements st env := by
    unfold uploadAllFiles
    rw [if_neg hg]
    split <;> rfl
  have hmap : batchSettlements st env
      = (pendingFiles st).map (fun t => (t.id, (uploadFileRun (env t.id)).finalStatus)) := by
    simp [batchSettlements, batchRuns, List.map_map, Function.comp]
  refine ⟨by rw [hs, hmap], by rw [hs, hmap]; simp, ?_⟩
  intro q hq
  rw [hs, hmap] at hq
  rcases List.mem_map.mp hq with ⟨t, _, rfl⟩
  exact uploadFileRun_status_cases (env t.id)

/-- Witness for C1: two pending tasks, one succeeding and one failing, both
settle. -/
theorem uploadAllFiles_settles_all_witness :
    (uploadAllFiles stW envW).settlements
        = (pendingFiles stW).map (fun t => (t.id, (uploadFileRun (envW t.id)).finalStatus)) ∧
    (uploadAllFiles stW envW).settlements.length = (pendingFiles stW).length ∧
    ∀ q ∈ (uploadAllFiles stW envW).settlements, q.2 = "complete" ∨ q.2 = "error" :=
  uploadAllFiles_settles_all stW envW rfl (by decide)

/-- Counterexample to C2 as stated: in the sequential variant (part_000
`handleUpload`), a run whose only task fails still invokes the completion
callback — once, with the empty result list — although the successful
subset is empty. -/
theorem handleUpload_callback_on_total_failure :
    (handleUpload [⟨"a.mp4", 100⟩] envNone).newUploadedVideos = [] ∧
    (handleUpload [⟨"a.mp4", 100⟩] envNone).callbackCalls = [[]] :=
  ⟨rfl, rfl⟩

/-- C2 as amended: the main orchestrator invokes the completion callback at
most once per run, and invokes it exactly when the successful subset is
non-empty; the sequential variant (part_000) instead invokes the callback
exactly once per non-empty run regardless of failures, passing the possibly
empty list of successes. -/
theorem completion_callback_policy (st : UState) (env : String → TransferBehavior)
    (files : List FileObj) (env0 : String → TransferBehavior)
    (hne : files.length ≠ 0) :
    (uploadAllFiles st env).callbackCalls.length ≤ 1 ∧
    ((uploadAllFiles st env).callbackCalls ≠ [] ↔ (uploadAllFiles st env).successes ≠ []) ∧
    (handleUpload files env0).callbackCalls = [(handleUpload files env0).newUploadedVideos] := by
  refine ⟨?_, ?_, ?_⟩
  · unfold uploadAllFiles
    by_cases hg : st.files.length = 0 ∨ st.uploading = true
    · rw [if_pos hg]; simp
    · rw [if_neg hg]
      by_cases hsuc : 0 < (batchSuccesses st env).length
      · rw [if_pos hsuc]; simp
      · rw [if_neg hsuc]; simp
  · unfold uploadAllFiles
    by_cases hg : st.files.length = 0 ∨ st.uploading = true
    · rw [if_pos hg]; simp
    · rw [if_neg hg]
      by_cases hsuc : 0 < (batchSuccesses st env).length
      · rw [if_pos hsuc]
        have hnil : batchSuccesses st env ≠ [] := List.length_pos.mp hsuc
        simp [hnil]
      · rw [if_neg hsuc]
        have hnil : batchSuccesses st env = [] := by
          rw [← List.length_eq_zero]; omega
        simp [hnil]
  · simp [handleUpload, hne]

/-- Witness for C2 as amended, on a concrete batch and a concrete
sequential run. -/
theorem completion_callback_policy_witness :
    (uploadAllFiles stW envW).callbackCalls.length ≤ 1 ∧
    ((uploadAllFiles stW envW).callbackCalls ≠ [] ↔ (uploadAllFiles stW envW).successes ≠ []) ∧
    (handleUpload [⟨"a.mp4", 100⟩] envNone).callbackCalls
        = [(handleUpload [⟨"a.mp4", 100⟩] envNone).newUploadedVideos] :=
  completion_callback_policy stW envW [⟨"a.mp4", 100⟩] envNone (by decide)

/-- Counterexample to C3 as stated: in the sequential variant, the initial
bump to 5 written by `handleUpload` is followed by the rescaled value 0 of
an early transfer event, so the progress sequence of this attempt decreases
before reaching a terminal value. -/
theorem p0_trace_not_monotone :
    p0AttemptTrace ⟨[⟨true, 0, 100⟩], Outcome.response 200 (some sampleResp)⟩
        = [ProgVal.num 5, ProgVal.num 0, ProgVal.num 85, ProgVal.num 100] ∧
    ¬ traceMonotone
        (p0AttemptTrace ⟨[⟨true, 0, 100⟩], Outcome.response 200 (some sampleResp)⟩) := by
  refine ⟨rfl, ?_⟩
  intro h
  have h2 : List.Chain' (· ≤ ·) [5, 0, 85] := h
  exact absurd (List.chain'_cons.mp h2).1 (by omega)

/-- When every event has a computable length, the listener rescales each
one. -/
theorem scaleEvent_filterMap_eq_map (es : List ProgressEvent)
    (h : ∀ e ∈ es, e.lengthComputable = true) :
    es.filterMap scaleEvent = es.map (fun e => round60 e.loaded e.total) := by
  induction es with
  | nil => rfl
  | cons a l ih =>
    have ha := h a (List.mem_cons_self a l)
    simp [List.filterMap_cons, scaleEvent, ha,
      ih (fun e he => h e (List.mem_cons_of_mem a he))]

/-- Every rescaled value of a wellformed event list is at most 60. -/
theorem scaled_le_60 (es : List ProgressEvent)
    (h : ∀ e ∈ es, e.lengthComputable = true ∧ e.loaded ≤ e.total) :
    ∀ x ∈ es.filterMap scaleEvent, x ≤ 60 := by
  intro x hx
  rcases List.mem_filterMap.mp hx with ⟨e, he, hse⟩
  rcases h e he with ⟨hc, hle⟩
  rw [show scaleEvent e = some (round60 e.loaded e.total) from by simp [scaleEvent, hc]]
    at hse
  have hxe : round60 e.loaded e.total = x := by simpa using hse
  rw [← hxe]
  exact round60_le_60 _ _ hle

/-- C3 as amended: in the concurrent variants (`uploadFile` of the main and
part_001 uploaders) the per-attempt progress sequence is monotonically
non-decreasing under a wellformed transport (non-decreasing byte counter,
`loaded ≤ total`, fixed total), for every terminal outcome; the sequential
variant violates the original claim (see the counterexample). -/
theorem uploadFile_progress_monotone (es : List ProgressEvent) (oc : Outcome)
    (h : EventsWF es) :
    ((uploadFileRun ⟨es, oc⟩).progressUpdates).Chain' (· ≤ ·) := by
  obtain ⟨hall, hchain⟩ := h
  have hcomp : ∀ e ∈ es, e.lengthComputable = true := fun e he => (hall e he).1
  have hscaledchain : (es.filterMap scaleEvent).Chain' (· ≤ ·) := by
    rw [scaleEvent_filterMap_eq_map es hcomp, List.chain'_map]
    refine hchain.imp ?_
    intro a b hab
    rw [← hab.2]
    exact round60_mono a.total hab.1
  have hbound := scaled_le_60 es hall
  have happend : ∀ rest : List Nat, rest.Chain' (· ≤ ·) →
      (∀ y ∈ rest.head?, 60 ≤ y) →
      (es.filterMap scaleEvent ++ rest).Chain' (· ≤ ·) := by
    intro rest hrest hhead
    refine List.Chain'.append hscaledchain hrest ?_
    intro x hx y hy
    rcases List.mem_getLast?_eq_getLast hx with ⟨hne, hxl⟩
    have hxmem : x ∈ es.filterMap scaleEvent := by
      rw [hxl]; exact List.getLast_mem hne
    exact le_trans (hbound x hxmem) (hhead y hy)
  cases oc with
  | netError =>
    have : (uploadFileRun ⟨es, Outcome.netError⟩).progressUpdates
        = es.filterMap scaleEvent := rfl
    rw [this]
    exact hscaledchain
  | response s body =>
    by_cases hs : 200 ≤ s ∧ s < 300
    · cases body with
      | some r =>
        have : (uploadFileRun ⟨es, Outcome.response s (some r)⟩).progressUpdates
            = es.filterMap scaleEvent ++ [80, 100] := by simp [uploadFileRun, hs]
        rw [this]
        refine happend [80, 100]
          (List.chain'_cons.mpr ⟨by omega, List.chain'_singleton 100⟩) ?_
        intro y hy
        have h80 : 80 = y := by simpa using hy
        omega
      | none =>
        have : (uploadFileRun ⟨es, Outcome.response s none⟩).progressUpdates
            = es.filterMap scaleEvent ++ [80] := by simp [uploadFileRun, hs]
        rw [this]
        refine happend [80] (List.chain'_singleton 80) ?_
        intro y hy
        have h80 : 80 = y := by simpa using hy
        omega
    · have : (uploadFileRun ⟨es, Outcome.response s body⟩).progressUpdates
          = es.filterMap scaleEvent := by simp [uploadFileRun, hs]
      rw [this]
      exact hscaledchain

/-- Witness for C3 as amended: a two-event wellformed transfer that
succeeds. -/
theorem uploadFile_progress_monotone_witness :
    ((uploadFileRun ⟨wfEvents, Outcome.response 200 (some sampleResp)⟩).progressUpdates).Chain'
      (· ≤ ·) := by
  refine uploadFile_progress_monotone wfEvents (Outcome.response 200 (some sampleResp))
    ⟨?_, ?_⟩
  · intro e he
    simp only [wfEvents, List.mem_cons, List.not_mem_nil, or_false] at he
    rcases he with rfl | rfl
    · exact ⟨rfl, by decide⟩
    · exact ⟨rfl, by decide⟩
  · exact List.chain'_cons.mpr ⟨⟨by decide, rfl⟩, List.chain'_singleton _⟩

/-- C4: a second `uploadAllFiles` call while a batch is in flight returns
at once, submitting nothing and leaving the state unchanged; and the retry
affordance the component exposes is unavailable both while a batch is in
flight and for any task whose status is "uploading" or "processing", so no
in-flight task can be submitted a second time concurrently. -/
theorem no_concurrent_resubmission (st : UState) (env : String → TransferBehavior)
    (id : String) :
    (st.uploading = true → uploadAllFiles st env = ⟨st, [], [], [], []⟩) ∧
    (st.uploading = true → ¬ retryEnabled st id) ∧
    ((st.uploadStatus id = some "uploading" ∨ st.uploadStatus id = some "processing") →
      ¬ retryEnabled st id) := by
  refine ⟨?_, ?_, ?_⟩
  · intro h
    unfold uploadAllFiles
    rw [if_pos (Or.inr h)]
  · intro h hr
    have h2 := hr.2
    rw [h] at h2
    exact Bool.noConfusion h2
  · intro h hr
    have h1 := hr.1
    rcases h with h | h <;> rw [h] at h1 <;>
      exact absurd (Option.some.inj h1) (by decide)

/-- Witness for C4 on a busy state with a task recorded as uploading. -/
theorem no_concurrent_resubmission_witness :
    uploadAllFiles stBusy envNone = ⟨stBusy, [], [], [], []⟩ ∧
    ¬ retryEnabled stBusy "a-1" ∧
    ¬ retryEnabled stBusy "b-1" :=
  ⟨(no_concurrent_resubmission stBusy envNone "a-1").1 rfl,
    (no_concurrent_resubmission stBusy envNone "a-1").2.1 rfl,
    (no_concurrent_resubmission stBusy envNone "b-1").2.2 (Or.inl rfl)⟩

/-- C8 evaluation: two files that share a name, registered by one admission
call (hence with one `Date.now()` value), receive the same id, so the
registry holds two live tasks with equal ids — the id scheme
`name-timestamp` does not deliver the uniqueness its own comment ("Create a
unique ID") and the spec invariant promise. -/
theorem duplicate_id_bug :
    ((addNewFiles emptyUState dupFiles 1).files.map FileTask.id)
        = ["a.mp4-1", "a.mp4-1"] ∧
    ¬ ((addNewFiles emptyUState dupFiles 1).files.map FileTask.id).Nodup := by
  refine ⟨rfl, ?_⟩
  intro h
  have h2 : (["a.mp4-1", "a.mp4-1"] : List String).Nodup := h
  simp at h2

